import Mathlib

/-
Verification development for the Hostezze property-management front end.

The subject is the availability-selector logic of the New Enquiry calendar
page (component NewEnquiryCalendar) and the occupancy test of the Room
Availability Calendar page (component RoomCalendar).

Modelling conventions:
- Calendar days are natural numbers (day index at start-of-day granularity).
  Every date handled by the calendar logic is a start-of-day value, so
  JavaScript Date comparison on them is exactly comparison of day indices.
- React useState fields of the component become fields of CalendarState.
  A click handler becomes a pure function from state to (state, effects),
  where the effect list records the outbound actions the handler performs:
  toast notifications, the availability fetch, and the enquiry-creation
  mutation.
- The availability fetch is asynchronous: the synchronous part of
  checkAvailability (setLoadingRooms(true) and issuing the request) happens
  inside the click, and the continuation that runs when the response
  arrives is applyAvailabilityResponse.  The continuation is applied to
  whatever state holds at arrival time, with no staleness guard, exactly
  as in the source.
- JavaScript truthiness: a number variable of type (number | undefined) is
  falsy exactly when it is undefined or 0 (numberFalsy); a Date object is
  truthy whenever defined (dateFalsy).
-/

/-- Room record as returned by the availability endpoint.  The shared
schema carries id, roomNumber, roomType and pricePerNight; the calendar
logic only ever consults the id (handleRoomSelect passes room.id), so the
model keeps the id. -/
structure Room where
  id : Nat
  deriving DecidableEq, Repr

/-- Toast notifications the New Enquiry page can raise, one constructor per
toast call site in the source. -/
inductive ToastKind
  /-- toast "Invalid Date / Check-out must be after check-in date" -/
  | invalidDate
  /-- toast "No Rooms Available" -/
  | noRoomsAvailable
  /-- toast "Rooms Found!" -/
  | roomsFound
  /-- toast "Error / Failed to check room availability" -/
  | availabilityError
  /-- toast "Missing Information" -/
  | missingInformation
  /-- toast "Enquiry Created!" (mutation onSuccess) -/
  | enquiryCreated
  /-- toast "Error / Failed to create enquiry" (mutation onError) -/
  | createError
  deriving DecidableEq, Repr

/-- Payload of the enquiry-creation mutation, built by onSubmit.  Numeric
form values are modelled as rationals (the zod schema coerces them to
JavaScript numbers). -/
structure EnquiryData where
  propertyId : Nat
  guestName : String
  guestPhone : String
  guestEmail : Option String
  checkInDate : Nat
  checkOutDate : Nat
  roomId : Nat
  numberOfGuests : ℚ
  priceQuoted : Option ℚ
  advanceAmount : Option ℚ
  specialRequests : Option String
  status : String
  deriving DecidableEq, Repr

/-- Outbound actions performed by the handlers.  availabilityQuery carries
the value of selectedPropertyId observed at the non-null assertion site
(selectedPropertyId!), so an undefined dereference is visible as none. -/
inductive Effect
  | toast (kind : ToastKind)
  | availabilityQuery (propertyId : Option Nat) (checkIn checkOut : Nat)
  | createEnquiry (data : EnquiryData)
  deriving DecidableEq, Repr

/-- The useState fields of NewEnquiryCalendar that the selector logic reads
and writes (currentDate, which only scrolls the displayed month, is
omitted). -/
structure CalendarState where
  selectedPropertyId : Option Nat
  checkInDate : Option Nat
  checkOutDate : Option Nat
  availableRooms : List Room
  selectedRoomId : Option Nat
  loadingRooms : Bool
  showGuestForm : Bool
  deriving DecidableEq, Repr

/-- Initial component state: every useState starts undefined / empty /
false. -/
def initialState : CalendarState :=
  { selectedPropertyId := none
    checkInDate := none
    checkOutDate := none
    availableRooms := []
    selectedRoomId := none
    loadingRooms := false
    showGuestForm := false }

/-- Truthiness of a (number | undefined) variable: falsy when undefined or
0. -/
def numberFalsy : Option Nat → Bool
  | none => true
  | some n => n == 0

/-- Truthiness of a (Date | undefined) variable: a Date object is always
truthy, so falsy exactly when undefined. -/
def dateFalsy : Option Nat → Bool
  | none => true
  | some _ => false

/-- handleDateClick from NewEnquiryCalendar.  today is startOfDay(new
Date()) computed on entry; date is the clicked day.  The three branches
are: first click sets check-in and clears everything downstream; second
click validates date > checkInDate, sets check-out and starts
checkAvailability (whose synchronous prefix sets loadingRooms and issues
the fetch, keyed by selectedPropertyId! and the closure values checkInDate
and date); third click resets to a fresh check-in. -/
def handleDateClick (today date : Nat) (s : CalendarState) :
    CalendarState × List Effect :=
  if date < today then (s, [])
  else
    match s.checkInDate with
    | none =>
        ({ s with checkInDate := some date
                  checkOutDate := none
                  availableRooms := []
                  selectedRoomId := none
                  showGuestForm := false }, [])
    | some checkIn =>
        match s.checkOutDate with
        | none =>
            if date ≤ checkIn then
              (s, [Effect.toast ToastKind.invalidDate])
            else
              ({ s with checkOutDate := some date
                        loadingRooms := true },
               [Effect.availabilityQuery s.selectedPropertyId checkIn date])
        | some _ =>
            ({ s with checkInDate := some date
                      checkOutDate := none
                      availableRooms := []
                      selectedRoomId := none
                      showGuestForm := false }, [])

/-- Continuation of checkAvailability when the fetch settles.  some rooms
is an ok response with parsed body; none is a failed response or thrown
error.  On success the room list is stored and a toast reports found or
none; on failure an error toast fires and the list is cleared; in both
cases loadingRooms is finally cleared.  The source applies this to the
state at arrival time unconditionally: there is no request token or other
staleness check. -/
def applyAvailabilityResponse (result : Option (List Room))
    (s : CalendarState) : CalendarState × List Effect :=
  match result with
  | some rooms =>
      ({ s with availableRooms := rooms, loadingRooms := false },
       [Effect.toast
          (if rooms.isEmpty then ToastKind.noRoomsAvailable
           else ToastKind.roomsFound)])
  | none =>
      ({ s with availableRooms := [], loadingRooms := false },
       [Effect.toast ToastKind.availabilityError])

/-- onValueChange of the property Select: stores parseInt(value) and clears
dates, rooms, room selection and the guest form. -/
def onPropertyChange (value : Nat) (s : CalendarState) : CalendarState :=
  { s with selectedPropertyId := some value
           checkInDate := none
           checkOutDate := none
           availableRooms := []
           selectedRoomId := none
           showGuestForm := false }

/-- handleRoomSelect: records the chosen room id and opens the guest
form. -/
def handleRoomSelect (roomId : Nat) (s : CalendarState) : CalendarState :=
  { s with selectedRoomId := some roomId, showGuestForm := true }

/-- Validated output of the guest-detail form, as consumed by onSubmit.
guestEmail may be undefined or the empty string (both pass the schema);
numeric fields are the coerced numbers. -/
structure EnquiryFormData where
  guestName : String
  guestPhone : String
  guestEmail : Option String
  numberOfGuests : ℚ
  priceQuoted : Option ℚ
  advanceAmount : Option ℚ
  specialRequests : Option String
  deriving DecidableEq, Repr

/-- onSubmit from NewEnquiryCalendar: refuses with a Missing Information
toast when any of selectedPropertyId, checkInDate, checkOutDate,
selectedRoomId is falsy, and otherwise fires the enquiry-creation mutation
with the assembled payload (guestEmail || null maps the empty string to
null; priceQuoted?.toString() || null and advanceAmount likewise keep the
value when present; specialRequests || null maps empty to null). -/
def onSubmit (s : CalendarState) (data : EnquiryFormData) : List Effect :=
  if numberFalsy s.selectedPropertyId || dateFalsy s.checkInDate ||
      dateFalsy s.checkOutDate || numberFalsy s.selectedRoomId then
    [Effect.toast ToastKind.missingInformation]
  else
    [Effect.createEnquiry
      { propertyId := s.selectedPropertyId.getD 0
        guestName := data.guestName
        guestPhone := data.guestPhone
        guestEmail :=
          match data.guestEmail with
          | none => none
          | some e => if e = "" then none else some e
        checkInDate := (s.checkInDate).getD 0
        checkOutDate := (s.checkOutDate).getD 0
        roomId := (s.selectedRoomId).getD 0
        numberOfGuests := data.numberOfGuests
        priceQuoted := data.priceQuoted
        advanceAmount := data.advanceAmount
        specialRequests :=
          match data.specialRequests with
          | none => none
          | some r => if r = "" then none else some r
        status := "new" }]

/-- Mutation onSuccess handler: resets dates, rooms, room selection and the
guest form (selectedPropertyId is kept). -/
def applyEnquirySaved (s : CalendarState) : CalendarState :=
  { s with checkInDate := none
           checkOutDate := none
           availableRooms := []
           selectedRoomId := none
           showGuestForm := false }

/-- Events a user session can deliver to the component: calendar clicks
(with the value of start-of-current-day at click time), property changes,
room picks, arrival of an availability response, guest-form submission,
and settlement of the enquiry-creation mutation. -/
inductive Event
  | dateClick (today date : Nat)
  | propertyChange (value : Nat)
  | roomSelect (roomId : Nat)
  | availabilityResponse (result : Option (List Room))
  | submit (data : EnquiryFormData)
  | enquirySaved
  | enquiryFailed
  deriving DecidableEq, Repr

/-- One event applied to the component state, with the effects it emits. -/
def step (s : CalendarState) (e : Event) : CalendarState × List Effect :=
  match e with
  | Event.dateClick today date => handleDateClick today date s
  | Event.propertyChange v => (onPropertyChange v s, [])
  | Event.roomSelect rid => (handleRoomSelect rid s, [])
  | Event.availabilityResponse r => applyAvailabilityResponse r s
  | Event.submit data => (s, onSubmit s data)
  | Event.enquirySaved =>
      (applyEnquirySaved s, [Effect.toast ToastKind.enquiryCreated])
  | Event.enquiryFailed => (s, [Effect.toast ToastKind.createError])

/-- Run of an event list from the initial state, accumulating all emitted
effects in order. -/
def run (events : List Event) : CalendarState × List Effect :=
  events.foldl
    (fun acc e => ((step acc.1 e).1, acc.2 ++ (step acc.1 e).2))
    (initialState, [])

/-- The calendar card is rendered only under the guard selectedPropertyId
&& ... in the JSX, so a day button exists exactly when selectedPropertyId
is truthy. -/
def calendarRendered (s : CalendarState) : Bool :=
  !(numberFalsy s.selectedPropertyId)

/-- Step of the rendered UI: events that come from buttons which the JSX
only renders under a guard are dropped when the guard is false (a click on
a button that does not exist cannot happen).  Day buttons need the
calendar card (selectedPropertyId truthy); room buttons need checkOutDate
&& availableRooms.length > 0; the submit button needs showGuestForm. -/
def uiStep (s : CalendarState) (e : Event) : CalendarState × List Effect :=
  match e with
  | Event.dateClick _ _ => if calendarRendered s then step s e else (s, [])
  | Event.roomSelect _ =>
      if !(dateFalsy s.checkOutDate) && !(s.availableRooms.isEmpty) then
        step s e
      else (s, [])
  | Event.submit _ => if s.showGuestForm then step s e else (s, [])
  | _ => step s e

/-- Run of the rendered UI from the initial state. -/
def uiRun (events : List Event) : CalendarState × List Effect :=
  events.foldl
    (fun acc e => ((uiStep acc.1 e).1, acc.2 ++ (uiStep acc.1 e).2))
    (initialState, [])

/-- SelectionState of the specification, read off the component state: no
check-in yet, awaiting check-out, complete range, room chosen, guest form
open. -/
inductive SelectionState
  | noCheckIn
  | awaitingCheckOut
  | rangeComplete
  | roomChosen
  | guestFormOpen
  deriving DecidableEq, Repr

/-- Derived view mapping the component state onto the enumerated selection
states of the specification. -/
def selectionState (s : CalendarState) : SelectionState :=
  match s.checkInDate, s.checkOutDate with
  | none, _ => SelectionState.noCheckIn
  | some _, none => SelectionState.awaitingCheckOut
  | some _, some _ =>
      if s.showGuestForm then SelectionState.guestFormOpen
      else if s.selectedRoomId.isSome then SelectionState.roomChosen
      else SelectionState.rangeComplete

/-- DateRange invariant of the specification as a decidable check: whenever
both dates are present the check-out day is strictly later. -/
def dateRangeInvariant (s : CalendarState) : Bool :=
  match s.checkInDate, s.checkOutDate with
  | some ci, some co => decide (ci < co)
  | _, _ => true

/-- Recognizer for availability-query effects whose propertyId was defined
at the dereference site. -/
def queryPropertyDefined : Effect → Bool
  | Effect.availabilityQuery pid _ _ => pid.isSome
  | _ => true

/-- Count of availability queries in an effect list. -/
def queryCount (effects : List Effect) : Nat :=
  (effects.filter (fun e =>
    match e with
    | Effect.availabilityQuery _ _ _ => true
    | _ => false)).length

/-- Booking record consulted by the Room Availability Calendar page
(shared schema fields used by that page). -/
structure Booking where
  propertyId : Nat
  roomId : Nat
  status : String
  checkInDate : Nat
  checkOutDate : Nat
  deriving DecidableEq, Repr

/-- propertyBookings from RoomCalendar: bookings of the selected property
whose status is confirmed or checked-in. -/
def propertyBookings (selectedPropertyId : Nat) (bookings : List Booking) :
    List Booking :=
  bookings.filter (fun b =>
    b.propertyId == selectedPropertyId &&
    (b.status == "confirmed" || b.status == "checked-in"))

/-- isRoomOccupied from RoomCalendar: a room is occupied on a date when
some filtered booking for that room satisfies checkIn ≤ date < checkOut. -/
def isRoomOccupied (selectedPropertyId : Nat) (bookings : List Booking)
    (roomId : Nat) (date : Nat) : Bool :=
  (propertyBookings selectedPropertyId bookings).any (fun b =>
    if b.roomId != roomId then false
    else decide (b.checkInDate ≤ date) && decide (date < b.checkOutDate))

/-- enquiryFormSchema from NewEnquiryCalendar, as the acceptance test the
zod schema performs on a coerced form record.  isEmail stands for the
well-formedness test of z.string().email(), which lives in the validation
library, not in this repository.  guestName: min 2; guestPhone: min 10
(string length); guestEmail: email, optional, or the literal empty string;
numberOfGuests: coerced number, integer, min 1; priceQuoted and
advanceAmount: coerced number, min 0, optional; specialRequests: optional
string. -/
def enquiryFormAccepts (isEmail : String → Bool)
    (x : EnquiryFormData) : Bool :=
  decide (2 ≤ x.guestName.length) &&
  decide (10 ≤ x.guestPhone.length) &&
  (match x.guestEmail with
   | none => true
   | some e => isEmail e || decide (e = "")) &&
  (decide (x.numberOfGuests.den = 1) && decide (1 ≤ x.numberOfGuests)) &&
  (match x.priceQuoted with
   | none => true
   | some q => decide ((0 : ℚ) ≤ q)) &&
  (match x.advanceAmount with
   | none => true
   | some q => decide ((0 : ℚ) ≤ q))

/-- Number of decimal digit characters in a string (used to compare the
schema against the claimed at-least-10-digits reading). -/
def countDigits (s : String) : Nat :=
  (s.data.filter Char.isDigit).length

/-- Recognizer for the enquiry-creation network call. -/
def isCreateEnquiry : Effect → Bool
  | Effect.createEnquiry _ => true
  | _ => false

/- Helper lemmas about the three branches of handleDateClick. -/

/-- Clicking a day at or after today with no check-in set takes the first
branch: the day becomes the check-in and everything downstream clears. -/
theorem handleDateClick_first (today d : Nat) (s : CalendarState)
    (h0 : s.checkInDate = none) (ht : today ≤ d) :
    handleDateClick today d s =
      ({ s with checkInDate := some d
                checkOutDate := none
                availableRooms := []
                selectedRoomId := none
                showGuestForm := false }, []) := by
  unfold handleDateClick
  rw [if_neg (Nat.not_lt.mpr ht), h0]

/-- Clicking a day strictly after the pending check-in while no check-out
is set takes the completing branch: the day becomes the check-out,
loading starts, and one availability query is issued with the current
selectedPropertyId and the pending check-in. -/
theorem handleDateClick_second (today d ci : Nat) (s : CalendarState)
    (hci : s.checkInDate = some ci) (hco : s.checkOutDate = none)
    (ht : today ≤ d) (hgt : ci < d) :
    handleDateClick today d s =
      ({ s with checkOutDate := some d, loadingRooms := true },
       [Effect.availabilityQuery s.selectedPropertyId ci d]) := by
  unfold handleDateClick
  rw [if_neg (Nat.not_lt.mpr ht), hci, hco]
  simp [Nat.not_le.mpr hgt]

/-- Clicking a day at or after today while the check-in is pending but the
day is not after it takes the rejection branch: the state is unchanged and
the only effect is the invalid-date toast. -/
theorem handleDateClick_reject (today d ci : Nat) (s : CalendarState)
    (hci : s.checkInDate = some ci) (hco : s.checkOutDate = none)
    (ht : today ≤ d) (hle : d ≤ ci) :
    handleDateClick today d s = (s, [Effect.toast ToastKind.invalidDate]) := by
  unfold handleDateClick
  rw [if_neg (Nat.not_lt.mpr ht), hci, hco]
  simp [hle]

/-- Clicking a day at or after today while a complete range exists takes
the reset branch: the day becomes a fresh check-in and everything
downstream clears. -/
theorem handleDateClick_reset (today d ci co : Nat) (s : CalendarState)
    (hci : s.checkInDate = some ci) (hco : s.checkOutDate = some co)
    (ht : today ≤ d) :
    handleDateClick today d s =
      ({ s with checkInDate := some d
                checkOutDate := none
                availableRooms := []
                selectedRoomId := none
                showGuestForm := false }, []) := by
  unfold handleDateClick
  rw [if_neg (Nat.not_lt.mpr ht), hci, hco]

/-- C1: from NoCheckIn with a property selected, clicking d1 (today ≤ d1)
then d2 (d1 < d2) leaves the selector in RangeComplete with checkIn = d1
and checkOut = d2, and across the two clicks exactly one availability
query is issued, for (selected propertyId, d1, d2). -/
theorem two_clicks_complete_range_with_one_query
    (s : CalendarState) (p today d1 d2 : Nat)
    (hp : s.selectedPropertyId = some p) (h0 : s.checkInDate = none)
    (h1 : today ≤ d1) (h2 : d1 < d2) :
    selectionState
        (handleDateClick today d2 (handleDateClick today d1 s).1).1 =
      SelectionState.rangeComplete ∧
    (handleDateClick today d2 (handleDateClick today d1 s).1).1.checkInDate =
      some d1 ∧
    (handleDateClick today d2 (handleDateClick today d1 s).1).1.checkOutDate =
      some d2 ∧
    (handleDateClick today d1 s).2 ++
        (handleDateClick today d2 (handleDateClick today d1 s).1).2 =
      [Effect.availabilityQuery (some p) d1 d2] := by
  rw [handleDateClick_first today d1 s h0 h1]
  rw [handleDateClick_second today d2 d1 _ rfl rfl (le_trans h1 (le_of_lt h2)) h2]
  simp [selectionState, hp]

/-- C1 witness: concrete instance with property 1, today = 3, clicks on
days 10 and 12. -/
theorem two_clicks_complete_range_witness :
    selectionState
        (handleDateClick 3 12
          (handleDateClick 3 10 (onPropertyChange 1 initialState)).1).1 =
      SelectionState.rangeComplete ∧
    (handleDateClick 3 12
        (handleDateClick 3 10 (onPropertyChange 1 initialState)).1).1.checkInDate =
      some 10 ∧
    (handleDateClick 3 12
        (handleDateClick 3 10 (onPropertyChange 1 initialState)).1).1.checkOutDate =
      some 12 ∧
    (handleDateClick 3 10 (onPropertyChange 1 initialState)).2 ++
        (handleDateClick 3 12
          (handleDateClick 3 10 (onPropertyChange 1 initialState)).1).2 =
      [Effect.availabilityQuery (some 1) 10 12] :=
  two_clicks_complete_range_with_one_query (onPropertyChange 1 initialState)
    1 3 10 12 rfl rfl (by decide) (by decide)

/-- C4: clicking any day strictly before the start of the current day is a
no-op in every state: the state is returned unchanged and no effect of any
kind is emitted. -/
theorem past_click_is_noop (today d : Nat) (s : CalendarState)
    (h : d < today) : handleDateClick today d s = (s, []) := by
  simp [handleDateClick, h]

/-- C4 witness: clicking day 2 with today = 5 from the initial state. -/
theorem past_click_is_noop_witness :
    handleDateClick 5 2 initialState = (initialState, []) :=
  past_click_is_noop 5 2 initialState (by decide)

/-- C5 counterexample: in AwaitingCheckOut with checkIn = day 5 and
today = day 3, clicking day 1 satisfies d2 ≤ checkIn, yet the handler
returns without any effect: no inline invalid-range error is reported,
refuting the claim that every click with d2 ≤ checkIn reports one. -/
theorem past_invalid_click_reports_no_error :
    selectionState
        { selectedPropertyId := some 1, checkInDate := some 5,
          checkOutDate := none, availableRooms := [], selectedRoomId := none,
          loadingRooms := false, showGuestForm := false } =
      SelectionState.awaitingCheckOut ∧
    (1 : Nat) ≤ 5 ∧
    handleDateClick 3 1
        { selectedPropertyId := some 1, checkInDate := some 5,
          checkOutDate := none, availableRooms := [], selectedRoomId := none,
          loadingRooms := false, showGuestForm := false } =
      ({ selectedPropertyId := some 1, checkInDate := some 5,
         checkOutDate := none, availableRooms := [], selectedRoomId := none,
         loadingRooms := false, showGuestForm := false }, []) ∧
    Effect.toast ToastKind.invalidDate ∉
      (handleDateClick 3 1
        { selectedPropertyId := some 1, checkInDate := some 5,
          checkOutDate := none, availableRooms := [], selectedRoomId := none,
          loadingRooms := false, showGuestForm := false }).2 := by
  decide

/-- C5 amended: in AwaitingCheckOut, clicking a day d with today ≤ d and
d ≤ checkIn leaves the state fully unchanged (so checkIn keeps its value
and no transition happens), issues no availability query, and emits
exactly one inline invalid-range error; a click with d before today is
silently ignored instead (see the C4 theorem). -/
theorem invalid_checkout_click_only_reports_error
    (today d ci : Nat) (s : CalendarState)
    (hci : s.checkInDate = some ci) (hco : s.checkOutDate = none)
    (ht : today ≤ d) (hle : d ≤ ci) :
    handleDateClick today d s = (s, [Effect.toast ToastKind.invalidDate]) ∧
    selectionState s = SelectionState.awaitingCheckOut := by
  refine ⟨handleDateClick_reject today d ci s hci hco ht hle, ?_⟩
  simp [selectionState, hci, hco]

/-- C5 amended witness: checkIn = 5, today = 3, click on day 4. -/
theorem invalid_checkout_click_witness :
    handleDateClick 3 4
        { selectedPropertyId := some 1, checkInDate := some 5,
          checkOutDate := none, availableRooms := [], selectedRoomId := none,
          loadingRooms := false, showGuestForm := false } =
      ({ selectedPropertyId := some 1, checkInDate := some 5,
         checkOutDate := none, availableRooms := [], selectedRoomId := none,
         loadingRooms := false, showGuestForm := false },
       [Effect.toast ToastKind.invalidDate]) ∧
    selectionState
        { selectedPropertyId := some 1, checkInDate := some 5,
          checkOutDate := none, availableRooms := [], selectedRoomId := none,
          loadingRooms := false, showGuestForm := false } =
      SelectionState.awaitingCheckOut :=
  invalid_checkout_click_only_reports_error 3 4 5 _ rfl rfl (by decide)
    (by decide)

/-- C6: whenever a complete range exists (RangeComplete or any later
state, i.e. both dates present), clicking a day d with today ≤ d resets
the machine to AwaitingCheckOut with checkIn = d, checkOut absent, and the
room list, room selection and guest form all cleared, with no side
effect. -/
theorem click_after_complete_range_resets
    (today d ci co : Nat) (s : CalendarState)
    (hci : s.checkInDate = some ci) (hco : s.checkOutDate = some co)
    (ht : today ≤ d) :
    selectionState (handleDateClick today d s).1 =
      SelectionState.awaitingCheckOut ∧
    (handleDateClick today d s).1.checkInDate = some d ∧
    (handleDateClick today d s).1.checkOutDate = none ∧
    (handleDateClick today d s).1.availableRooms = [] ∧
    (handleDateClick today d s).1.selectedRoomId = none ∧
    (handleDateClick today d s).1.showGuestForm = false ∧
    (handleDateClick today d s).2 = [] := by
  rw [handleDateClick_reset today d ci co s hci hco ht]
  simp [selectionState]

/-- C6 witness: from a state in GuestFormOpen with range 10 to 12, a click
on day 20 with today = 3 resets everything. -/
theorem click_after_complete_range_resets_witness :
    selectionState
        (handleDateClick 3 20
          { selectedPropertyId := some 1, checkInDate := some 10,
            checkOutDate := some 12, availableRooms := [⟨5⟩],
            selectedRoomId := some 5, loadingRooms := false,
            showGuestForm := true }).1 =
      SelectionState.awaitingCheckOut ∧
    (handleDateClick 3 20
        { selectedPropertyId := some 1, checkInDate := some 10,
          checkOutDate := some 12, availableRooms := [⟨5⟩],
          selectedRoomId := some 5, loadingRooms := false,
          showGuestForm := true }).1.checkInDate = some 20 ∧
    (handleDateClick 3 20
        { selectedPropertyId := some 1, checkInDate := some 10,
          checkOutDate := some 12, availableRooms := [⟨5⟩],
          selectedRoomId := some 5, loadingRooms := false,
          showGuestForm := true }).1.checkOutDate = none ∧
    (handleDateClick 3 20
        { selectedPropertyId := some 1, checkInDate := some 10,
          checkOutDate := some 12, availableRooms := [⟨5⟩],
          selectedRoomId := some 5, loadingRooms := false,
          showGuestForm := true }).1.availableRooms = [] ∧
    (handleDateClick 3 20
        { selectedPropertyId := some 1, checkInDate := some 10,
          checkOutDate := some 12, availableRooms := [⟨5⟩],
          selectedRoomId := some 5, loadingRooms := false,
          showGuestForm := true }).1.selectedRoomId = none ∧
    (handleDateClick 3 20
        { selectedPropertyId := some 1, checkInDate := some 10,
          checkOutDate := some 12, availableRooms := [⟨5⟩],
          selectedRoomId := some 5, loadingRooms := false,
          showGuestForm := true }).1.showGuestForm = false ∧
    (handleDateClick 3 20
        { selectedPropertyId := some 1, checkInDate := some 10,
          checkOutDate := some 12, availableRooms := [⟨5⟩],
          selectedRoomId := some 5, loadingRooms := false,
          showGuestForm := true }).2 = [] :=
  click_after_complete_range_resets 3 20 10 12 _ rfl rfl (by decide)

/-- Every single event keeps the DateRange invariant: the completing click
stores a check-out only after checking date > checkIn, and every other
event either clears a date or leaves both untouched. -/
theorem step_preserves_dateRangeInvariant (s : CalendarState) (e : Event)
    (h : dateRangeInvariant s = true) :
    dateRangeInvariant (step s e).1 = true := by
  rcases s with ⟨pid, ci, co, rooms, rid, load, form⟩
  cases e with
  | dateClick today d =>
      unfold step handleDateClick
      dsimp only
      split
      · exact h
      · cases ci with
        | none => simp [dateRangeInvariant]
        | some a =>
            cases co with
            | none =>
                dsimp only
                split
                · exact h
                · rename_i hgt
                  simp [dateRangeInvariant]
                  omega
            | some b => simp [dateRangeInvariant]
  | propertyChange v => simp [step, onPropertyChange, dateRangeInvariant]
  | roomSelect r => exact h
  | availabilityResponse r => cases r <;> exact h
  | submit data => exact h
  | enquirySaved => simp [step, applyEnquirySaved, dateRangeInvariant]
  | enquiryFailed => exact h

/-- Fold form of the preservation lemma over an event list. -/
theorem foldl_preserves_dateRangeInvariant (events : List Event) :
    ∀ p : CalendarState × List Effect, dateRangeInvariant p.1 = true →
      dateRangeInvariant
        ((events.foldl
          (fun acc e => ((step acc.1 e).1, acc.2 ++ (step acc.1 e).2)) p).1) =
        true := by
  induction events with
  | nil => intro p h; exact h
  | cons e rest ih =>
      intro p h
      rw [List.foldl_cons]
      exact ih _ (step_preserves_dateRangeInvariant p.1 e h)

/-- C7: the DateRange invariant (whenever both checkIn and checkOut are
present, checkOut is strictly later than checkIn) is preserved by every
event of the component (date click, property change, room selection,
availability response, submission, mutation settlement), and therefore
holds in every state reachable from the initial state by any event
sequence. -/
theorem dateRange_invariant_reachable :
    (∀ (s : CalendarState) (e : Event), dateRangeInvariant s = true →
        dateRangeInvariant (step s e).1 = true) ∧
    (∀ events : List Event, dateRangeInvariant (run events).1 = true) := by
  refine ⟨step_preserves_dateRangeInvariant, fun events => ?_⟩
  unfold run
  exact foldl_preserves_dateRangeInvariant events (initialState, []) rfl

/-- C7 witness: preservation at a concrete state and event, and the
invariant after a concrete run. -/
theorem dateRange_invariant_witness :
    dateRangeInvariant
        (step { selectedPropertyId := some 1, checkInDate := some 10,
                checkOutDate := some 12, availableRooms := [],
                selectedRoomId := none, loadingRooms := false,
                showGuestForm := false }
          (Event.dateClick 0 20)).1 = true ∧
    dateRangeInvariant
        (run [Event.propertyChange 1, Event.dateClick 0 10,
              Event.dateClick 0 12]).1 = true :=
  ⟨dateRange_invariant_reachable.1 _ (Event.dateClick 0 20) (by decide),
   dateRange_invariant_reachable.2 _⟩

/-- A falsy-free (number | undefined) value is defined. -/
theorem numberFalsy_false_isSome (o : Option Nat)
    (h : numberFalsy o = false) : o.isSome = true := by
  cases o with
  | none => simp [numberFalsy] at h
  | some n => rfl

/-- All effects of a date click carry a defined propertyId provided
selectedPropertyId is defined in the clicked state: the only query the
click can issue dereferences exactly that field. -/
theorem handleDateClick_queries_defined (today d : Nat) (s : CalendarState)
    (h : (s.selectedPropertyId).isSome = true) :
    ((handleDateClick today d s).2).all queryPropertyDefined = true := by
  unfold handleDateClick
  split
  · rfl
  · cases s.checkInDate with
    | none => rfl
    | some ci =>
        cases s.checkOutDate with
        | none =>
            dsimp only
            split
            · rfl
            · simp [queryPropertyDefined, h]
        | some co => rfl

/-- Every effect list a rendered-UI step can emit consists of effects with
a defined propertyId: day buttons exist only while selectedPropertyId is
truthy, and no other event issues an availability query. -/
theorem uiStep_queries_defined (s : CalendarState) (e : Event) :
    ((uiStep s e).2).all queryPropertyDefined = true := by
  cases e with
  | dateClick today d =>
      unfold uiStep
      cases hr : calendarRendered s with
      | false => simp
      | true =>
          rw [if_pos rfl]
          unfold calendarRendered at hr
          apply handleDateClick_queries_defined
          apply numberFalsy_false_isSome
          cases hf : numberFalsy s.selectedPropertyId with
          | false => rfl
          | true => rw [hf] at hr; simp at hr
  | propertyChange v => rfl
  | roomSelect r =>
      unfold uiStep
      dsimp only
      split <;> rfl
  | availabilityResponse r => cases r <;> rfl
  | submit data =>
      unfold uiStep
      dsimp only
      split
      · unfold step onSubmit
        dsimp only
        split <;> rfl
      · rfl
  | enquirySaved => rfl
  | enquiryFailed => rfl

/-- Fold form: a rendered-UI run only accumulates effects with defined
propertyId. -/
theorem foldl_queries_defined (events : List Event) :
    ∀ p : CalendarState × List Effect,
      p.2.all queryPropertyDefined = true →
      ((events.foldl
          (fun acc e => ((uiStep acc.1 e).1, acc.2 ++ (uiStep acc.1 e).2))
          p).2).all queryPropertyDefined = true := by
  induction events with
  | nil => intro p h; exact h
  | cons e rest ih =>
      intro p h
      rw [List.foldl_cons]
      apply ih
      simp [List.all_append, h, uiStep_queries_defined p.1 e]

/-- C10: in the rendered UI (where a day button exists only while
selectedPropertyId is truthy, property selection always stores a number,
and nothing ever clears it back to undefined) every availability query
issued along any event sequence carries a defined propertyId, so the
non-null assertion in the second-click branch never dereferences
undefined. -/
theorem availability_query_propertyId_defined (events : List Event) :
    ((uiRun events).2).all queryPropertyDefined = true := by
  unfold uiRun
  exact foldl_queries_defined events (initialState, []) rfl

/-- C3 evaluation: the code has no request token or staleness guard, and
it accepts new completed-range transitions while a query is outstanding.
First trace: select property 1, click days 10 and 12 (issuing a query),
restart the range by clicking day 20 (which clears the room list and
supersedes the in-flight query), then let the superseded response arrive:
it is applied anyway, leaving availableRooms = [room 5] attached to a
restarted selection whose checkOut is absent.  Second trace: while the
query from the 10-12 range is still outstanding (loadingRooms is true
after the restart click on 14), clicking 16 completes a new range and a
second query is issued, so two queries are outstanding at once. -/
theorem stale_availability_response_overwrites_state :
    (uiRun [Event.propertyChange 1, Event.dateClick 0 10,
        Event.dateClick 0 12, Event.dateClick 0 20,
        Event.availabilityResponse (some [⟨5⟩])]).1.checkOutDate = none ∧
    (uiRun [Event.propertyChange 1, Event.dateClick 0 10,
        Event.dateClick 0 12, Event.dateClick 0 20,
        Event.availabilityResponse (some [⟨5⟩])]).1.checkInDate = some 20 ∧
    (uiRun [Event.propertyChange 1, Event.dateClick 0 10,
        Event.dateClick 0 12, Event.dateClick 0 20]).1.availableRooms = [] ∧
    (uiRun [Event.propertyChange 1, Event.dateClick 0 10,
        Event.dateClick 0 12, Event.dateClick 0 20,
        Event.availabilityResponse (some [⟨5⟩])]).1.availableRooms = [⟨5⟩] ∧
    (uiRun [Event.propertyChange 1, Event.dateClick 0 10,
        Event.dateClick 0 12, Event.dateClick 0 14]).1.loadingRooms = true ∧
    (uiRun [Event.propertyChange 1, Event.dateClick 0 10,
        Event.dateClick 0 12, Event.dateClick 0 14,
        Event.dateClick 0 16]).1.checkOutDate = some 16 ∧
    queryCount
      (uiRun [Event.propertyChange 1, Event.dateClick 0 10,
          Event.dateClick 0 12, Event.dateClick 0 14,
          Event.dateClick 0 16]).2 = 2 := by
  decide

/-- C8: a guest-detail submission with selectedPropertyId, checkInDate,
checkOutDate or selectedRoomId unset is always refused: the only effect is
the Missing Information toast, and in particular no enquiry-creation
network call fires. -/
theorem submit_with_missing_selection_refused
    (s : CalendarState) (data : EnquiryFormData)
    (h : s.selectedPropertyId = none ∨ s.checkInDate = none ∨
        s.checkOutDate = none ∨ s.selectedRoomId = none) :
    onSubmit s data = [Effect.toast ToastKind.missingInformation] ∧
    (onSubmit s data).all (fun e => !(isCreateEnquiry e)) = true := by
  have hrefuse : onSubmit s data =
      [Effect.toast ToastKind.missingInformation] := by
    unfold onSubmit
    rcases h with h | h | h | h <;> rw [h] <;> simp [numberFalsy, dateFalsy]
  exact ⟨hrefuse, by rw [hrefuse]; rfl⟩

/-- C8 witness: submitting with the room unset (property, range present)
is refused and fires no creation call. -/
theorem submit_with_missing_selection_refused_witness :
    onSubmit
        { selectedPropertyId := some 1, checkInDate := some 10,
          checkOutDate := some 12, availableRooms := [⟨5⟩],
          selectedRoomId := none, loadingRooms := false,
          showGuestForm := true }
        ⟨"Guest", "9876543210", none, 2, none, none, none⟩ =
      [Effect.toast ToastKind.missingInformation] ∧
    (onSubmit
        { selectedPropertyId := some 1, checkInDate := some 10,
          checkOutDate := some 12, availableRooms := [⟨5⟩],
          selectedRoomId := none, loadingRooms := false,
          showGuestForm := true }
        ⟨"Guest", "9876543210", none, 2, none, none, none⟩).all
      (fun e => !(isCreateEnquiry e)) = true :=
  submit_with_missing_selection_refused _ _ (Or.inr (Or.inr (Or.inr rfl)))

/-- Per-booking occupancy test of isRoomOccupied, characterized: it holds
exactly when the booking is for the room and checkIn ≤ d < checkOut. -/
theorem occupiedEntry_iff (b : Booking) (rid d : Nat) :
    (if b.roomId != rid then false
     else decide (b.checkInDate ≤ d) && decide (d < b.checkOutDate)) = true ↔
    (b.roomId = rid ∧ b.checkInDate ≤ d ∧ d < b.checkOutDate) := by
  by_cases hr : b.roomId = rid
  · simp [hr]
  · simp [hr]

/-- C2: a day d counts as occupied for a room exactly when some confirmed
or checked-in booking of the selected property for that room satisfies
checkIn ≤ d < checkOut (half-open: the checkout day itself is free), and
on the concrete reservation [day 10, day 15): some day of the query range
[12, 20) is occupied, while no day of [15, 20) and no day of [1, 10)
is. -/
theorem isRoomOccupied_halfopen :
    (∀ (pid : Nat) (bookings : List Booking) (rid d : Nat),
        isRoomOccupied pid bookings rid d = true ↔
        ∃ b ∈ bookings, b.propertyId = pid ∧
          (b.status = "confirmed" ∨ b.status = "checked-in") ∧
          b.roomId = rid ∧ b.checkInDate ≤ d ∧ d < b.checkOutDate) ∧
    (∃ d, d < 20 ∧ 12 ≤ d ∧
        isRoomOccupied 1 [⟨1, 7, "confirmed", 10, 15⟩] 7 d = true) ∧
    (∀ d, d < 20 → 15 ≤ d →
        isRoomOccupied 1 [⟨1, 7, "confirmed", 10, 15⟩] 7 d = false) ∧
    (∀ d, d < 10 → 1 ≤ d →
        isRoomOccupied 1 [⟨1, 7, "confirmed", 10, 15⟩] 7 d = false) := by
  refine ⟨?_, ⟨12, by decide, by decide, by decide⟩, by decide, by decide⟩
  intro pid bookings rid d
  unfold isRoomOccupied propertyBookings
  rw [List.any_eq_true]
  constructor
  · rintro ⟨b, hb, hocc⟩
    rw [List.mem_filter] at hb
    obtain ⟨hmem, hcond⟩ := hb
    rw [occupiedEntry_iff] at hocc
    simp only [Bool.and_eq_true, beq_iff_eq, Bool.or_eq_true] at hcond
    exact ⟨b, hmem, hcond.1, hcond.2, hocc.1, hocc.2.1, hocc.2.2⟩
  · rintro ⟨b, hmem, hp, hst, hr, hle, hlt⟩
    refine ⟨b, ?_, ?_⟩
    · rw [List.mem_filter]
      refine ⟨hmem, ?_⟩
      simp only [Bool.and_eq_true, beq_iff_eq, Bool.or_eq_true]
      exact ⟨hp, hst⟩
    · rw [occupiedEntry_iff]
      exact ⟨hr, hle, hlt⟩

/-- C2 witness: the characterization applied to the concrete reservation
shows day 12 occupied and day 15 (the checkout day) free. -/
theorem isRoomOccupied_halfopen_witness :
    isRoomOccupied 1 [⟨1, 7, "confirmed", 10, 15⟩] 7 12 = true ∧
    ¬ isRoomOccupied 1 [⟨1, 7, "confirmed", 10, 15⟩] 7 15 = true := by
  constructor
  · exact (isRoomOccupied_halfopen.1 1 [⟨1, 7, "confirmed", 10, 15⟩] 7
      12).mpr ⟨⟨1, 7, "confirmed", 10, 15⟩, by decide, rfl, Or.inl rfl,
        rfl, by decide, by decide⟩
  · intro hocc
    obtain ⟨b, hb, _, _, _, _, hlt⟩ :=
      (isRoomOccupied_halfopen.1 1 [⟨1, 7, "confirmed", 10, 15⟩] 7 15).mp hocc
    rw [List.mem_singleton] at hb
    rw [hb] at hlt
    exact absurd hlt (by decide)

/-- C9 counterexample: the schema checks the LENGTH of guestPhone, not its
digit count: the ten-letter phone string abcdefghij contains zero digits,
yet the schema accepts the record, refuting the reading that acceptance
requires at least 10 digits. -/
theorem schema_accepts_phone_without_digits :
    enquiryFormAccepts (fun _ => false)
        ⟨"Jo", "abcdefghij", none, 1, none, none, none⟩ = true ∧
    countDigits "abcdefghij" = 0 := by
  decide

/-- C9 amended: validation accepts guest data exactly when guestName has
at least 2 characters, guestPhone has at least 10 characters (string
length, not digit count), guestEmail is absent, empty, or passes the email
test, numberOfGuests is an integer at least 1, and priceQuoted and
advanceAmount are at least 0 when present. -/
theorem enquiryFormAccepts_characterization (isEmail : String → Bool)
    (x : EnquiryFormData) :
    enquiryFormAccepts isEmail x = true ↔
      (2 ≤ x.guestName.length ∧ 10 ≤ x.guestPhone.length ∧
       (x.guestEmail = none ∨ x.guestEmail = some "" ∨
         ∃ e, x.guestEmail = some e ∧ isEmail e = true) ∧
       x.numberOfGuests.den = 1 ∧ 1 ≤ x.numberOfGuests ∧
       (∀ q, x.priceQuoted = some q → 0 ≤ q) ∧
       (∀ q, x.advanceAmount = some q → 0 ≤ q)) := by
  rcases x with ⟨n, ph, em, g, pq, av, sr⟩
  unfold enquiryFormAccepts
  cases em <;> cases pq <;> cases av <;>
    simp [Bool.and_eq_true, Bool.or_eq_true, decide_eq_true_eq] <;>
    tauto

/-- C9 amended witness: a record with a 10-character phone, a valid name,
no email and integral guest count is accepted. -/
theorem enquiryFormAccepts_witness :
    enquiryFormAccepts (fun _ => false)
        ⟨"Al", "0123456789", none, 2, none, none, none⟩ = true :=
  (enquiryFormAccepts_characterization (fun _ => false)
      ⟨"Al", "0123456789", none, 2, none, none, none⟩).mpr
    (by refine ⟨by decide, by decide, Or.inl rfl, by decide, by decide,
          ?_, ?_⟩ <;> intro q h <;> simp at h)
